import Mathlib

/-!
# Verification of the Support_System ticket workflow core

Shallow embedding of the core ticket workflow of the Support_System
repository: the client-side functions of the `TicketChat` component
(`sendMessage`, `updateTicketStatus`, `handleResolutionChoice`,
`loadMessages`) together with the row-level-security (RLS) policies of the
Postgres schema (`tickets`, `ticket_messages`, `ticket_escalations`,
`activity_logs`).

Modelling conventions:
* `uuid` values are modelled as `Nat`; `timestamptz` values are modelled as
  a `Nat` server clock `Store.now` that advances on every data-store call
  (the database assigns `created_at`/`updated_at` with `DEFAULT now()` and
  the `update_updated_at_column` trigger; clients never supply timestamps).
* The RLS subquery `EXISTS (SELECT 1 FROM users WHERE users.id = auth.uid()
  AND users.role = ...)` is modelled by reading the role off the actor's
  `User` record, which is what that subquery computes.
* PostgREST error semantics: an `INSERT` whose row fails the policy's
  `WITH CHECK` returns an error; an `UPDATE` only applies to rows that pass
  the policy's `USING` filter, and matching zero rows is *not* an error.
* The client functions return the new store together with the outcome the
  caller observes.  The source functions are `async` functions returning
  `void` which check `error` only to decide whether to continue, log
  failures with `console.error`, and surface nothing; accordingly every
  client-level branch reports `none`.
* React component state (`setTicketData`, `setShowResolutionOptions`,
  `setSending`, form `reset`) is view-local and not part of the store.
-/

namespace SupportSystem

/-- Roles of the `users.role` column:
`CHECK (role IN ('customer', 'super_admin', 'supervisory_admin', 'agent'))`. -/
inductive Role where
  | customer
  | agent
  | supervisory_admin
  | super_admin
deriving DecidableEq

/-- Ticket statuses, `CHECK (status IN ('open', 'closed', 'resolved',
'unresolved'))`.  The first constructor is written `open_` because `open` is
a Lean keyword. -/
inductive Status where
  | open_
  | closed
  | resolved
  | unresolved
deriving DecidableEq

/-- Escalation statuses, `CHECK (status IN ('pending', 'approved', 'rejected'))`. -/
inductive EscalationStatus where
  | pending
  | approved
  | rejected
deriving DecidableEq

/-- The customer's resolution choice, `choice: 'resolved' | 'unresolved'` in
`handleResolutionChoice`. -/
inductive ResolutionChoice where
  | resolved
  | unresolved
deriving DecidableEq

/-- Operation outcomes visible across the data-store boundary.  The error
taxonomy of the specification; the store itself only ever produces
`accessDenied` (an RLS `WITH CHECK` violation). -/
inductive OpError where
  | accessDenied
  | invalidTransition
  | validationError
  | notFound
  | transientFailure
deriving DecidableEq

/-- A row of `teams`: `id uuid`, `name text`, `tag text UNIQUE`. -/
structure Team where
  id : Nat
  name : String
  tag : String
deriving DecidableEq

/-- A row of `users` (the fields the core workflow reads): `id`, `role`,
`team_id uuid REFERENCES teams(id)`. -/
structure User where
  id : Nat
  role : Role
  team_id : Option Nat
deriving DecidableEq

/-- A row of `tickets`. -/
structure Ticket where
  id : Nat
  title : String
  description : String
  customer_id : Nat
  team_tag : Option String
  assigned_agent_id : Option Nat
  status : Status
  created_at : Nat
  updated_at : Nat
deriving DecidableEq

/-- A row of `ticket_messages`. -/
structure TicketMessage where
  id : Nat
  ticket_id : Nat
  user_id : Nat
  message : String
  created_at : Nat
deriving DecidableEq

/-- A row of `ticket_escalations`. -/
structure TicketEscalation where
  id : Nat
  ticket_id : Nat
  suggested_by_agent_id : Nat
  status : EscalationStatus
  reason : Option String
  created_at : Nat
  updated_at : Nat
deriving DecidableEq

/-- A row of `activity_logs` (the `details jsonb` payload is not read back
by any core logic and is dropped from the embedding). -/
structure ActivityLog where
  id : Nat
  user_id : Nat
  action : String
  created_at : Nat
deriving DecidableEq

/-- The data store: the tables touched by the core workflow, plus the
server clock used for `DEFAULT now()` columns and fresh row ids. -/
structure Store where
  teams : List Team
  tickets : List Ticket
  ticket_messages : List TicketMessage
  ticket_escalations : List TicketEscalation
  activity_logs : List ActivityLog
  now : Nat
deriving DecidableEq

/-- `['super_admin', 'supervisory_admin', 'agent'].includes(role)`
(line `isAdmin` of `TicketChat`, and the role list of the staff RLS
policies). -/
def Role.isStaff : Role → Bool
  | .customer => false
  | _ => true

/-- RLS policy "Admins and agents can update tickets" (`FOR UPDATE USING`):
the actor's `users.role` is one of `super_admin`, `supervisory_admin`,
`agent`. -/
def ticketsUpdatePolicy (actor : User) : Bool :=
  actor.role.isStaff

/-- RLS policy "Users can send messages to accessible tickets"
(`FOR INSERT WITH CHECK`): `user_id = auth.uid()` and there is a ticket row
with the message's `ticket_id` whose `customer_id` is the actor, or the
actor has a staff role.  Note: no team-tag condition and no ticket-status
condition appears in the policy. -/
def ticketMessagesInsertPolicy (s : Store) (actor : User) (row : TicketMessage) : Bool :=
  row.user_id == actor.id &&
    s.tickets.any fun t =>
      t.id == row.ticket_id && (t.customer_id == actor.id || actor.role.isStaff)

/-- RLS policy "Users can view messages for accessible tickets"
(`FOR SELECT USING`): same accessibility condition as the insert policy. -/
def ticketMessagesSelectPolicy (s : Store) (actor : User) (row : TicketMessage) : Bool :=
  s.tickets.any fun t =>
    t.id == row.ticket_id && (t.customer_id == actor.id || actor.role.isStaff)

/-- RLS policies on `ticket_escalations` for `INSERT`: "Agents can create
escalations" (`WITH CHECK`: `suggested_by_agent_id = auth.uid()` and the
actor's role is `agent`) together with "Supervisors can manage escalations"
(`FOR ALL USING` for `super_admin`/`supervisory_admin`; with no explicit
`WITH CHECK`, the `USING` expression also gates inserts). -/
def ticketEscalationsInsertPolicy (actor : User) (row : TicketEscalation) : Bool :=
  (row.suggested_by_agent_id == actor.id && actor.role == .agent) ||
    (actor.role == .super_admin || actor.role == .supervisory_admin)

/-- RLS policy "Users can create their own activity logs"
(`FOR INSERT WITH CHECK`): `user_id = auth.uid()`. -/
def activityLogsInsertPolicy (actor : User) (row : ActivityLog) : Bool :=
  row.user_id == actor.id

/-- `supabase.from('tickets').update({ status }).eq('id', ticket.id)`:
every ticket row matching the id *and* passing the update policy's `USING`
filter gets the new status, and `updated_at` is set by the
`update_tickets_updated_at` trigger.  Rows filtered out by RLS are left
untouched and no error is produced. -/
def dbUpdateTicketStatus (s : Store) (actor : User) (tid : Nat) (st : Status) :
    Store × Option OpError :=
  ({ s with
      tickets := s.tickets.map fun t =>
        if t.id == tid && ticketsUpdatePolicy actor then
          { t with status := st, updated_at := s.now }
        else t,
      now := s.now + 1 }, none)

/-- `supabase.from('ticket_messages').insert({ ticket_id, user_id, message })`:
the database fills `id` and `created_at`; an RLS `WITH CHECK` violation is
reported as an error and inserts nothing. -/
def dbInsertTicketMessage (s : Store) (actor : User) (tid : Nat) (body : String) :
    Store × Option OpError :=
  let row : TicketMessage :=
    { id := s.now, ticket_id := tid, user_id := actor.id, message := body,
      created_at := s.now }
  if ticketMessagesInsertPolicy s actor row then
    ({ s with ticket_messages := s.ticket_messages ++ [row], now := s.now + 1 }, none)
  else
    ({ s with now := s.now + 1 }, some .accessDenied)

/-- `supabase.from('ticket_escalations').insert(row)` with the same RLS
error semantics as any insert. -/
def dbInsertEscalation (s : Store) (actor : User) (row : TicketEscalation) :
    Store × Option OpError :=
  if ticketEscalationsInsertPolicy actor row then
    ({ s with ticket_escalations := s.ticket_escalations ++ [row], now := s.now + 1 }, none)
  else
    ({ s with now := s.now + 1 }, some .accessDenied)

/-- `supabase.from('activity_logs').insert({ user_id, action, details })`. -/
def dbInsertActivityLog (s : Store) (actor : User) (action : String) :
    Store × Option OpError :=
  let row : ActivityLog :=
    { id := s.now, user_id := actor.id, action := action, created_at := s.now }
  if activityLogsInsertPolicy actor row then
    ({ s with activity_logs := s.activity_logs ++ [row], now := s.now + 1 }, none)
  else
    ({ s with now := s.now + 1 }, some .accessDenied)

/-- JavaScript `String.prototype.trim()` as used by `sendMessage`
(`data.message.trim()`): strip leading and trailing whitespace.  Defined
over the character list so that it evaluates by kernel reduction. -/
def jsTrim (s : String) : String :=
  ⟨((s.data.dropWhile Char.isWhitespace).reverse.dropWhile Char.isWhitespace).reverse⟩

/-- The `status` strings used in the activity-log template literal. -/
def Status.str : Status → String
  | .open_ => "open"
  | .closed => "closed"
  | .resolved => "resolved"
  | .unresolved => "unresolved"

/-- `sendMessage` of `TicketChat` (lines 808-839): returns immediately when
there is no profile or the trimmed body is empty (`!data.message.trim()`);
otherwise inserts the trimmed body and, only on success, logs the activity.
No branch surfaces an error to the caller (the insert error aborts the
activity log; the `catch` block only calls `console.error`). -/
def sendMessage (s : Store) (userProfile : Option User) (ticket : Ticket)
    (body : String) : Store × Option OpError :=
  match userProfile with
  | none => (s, none)
  | some u =>
    if jsTrim body = "" then (s, none)
    else
      match dbInsertTicketMessage s u ticket.id (jsTrim body) with
      | (s1, none) => ((dbInsertActivityLog s1 u "Sent message in ticket").1, none)
      | (s1, some _) => (s1, none)

/-- `updateTicketStatus` of `TicketChat` (lines 841-875): returns when there
is no profile; otherwise issues the status update and, when the store
reports no error, logs the activity.  No role, ownership, or
current-status check of any kind is performed, and no branch surfaces an
error. -/
def updateTicketStatus (s : Store) (userProfile : Option User) (ticket : Ticket)
    (st : Status) : Store × Option OpError :=
  match userProfile with
  | none => (s, none)
  | some u =>
    match dbUpdateTicketStatus s u ticket.id st with
    | (s1, none) =>
        ((dbInsertActivityLog s1 u ("Ticket status changed to " ++ st.str)).1, none)
    | (s1, some _) => (s1, none)

/-- The fixed default escalation reason string of `handleResolutionChoice`. -/
def escalationReason : String :=
  "Customer requested to reopen ticket as unresolved"

/-- The fixed system-message body of `handleResolutionChoice`. -/
def reopenSystemMessage : String :=
  "Customer has requested to reopen this ticket as unresolved. Waiting for admin approval."

/-- The escalation row `handleResolutionChoice` hands to the store:
`{ ticket_id, suggested_by_agent_id: userProfile!.id, status: 'pending',
reason: <fixed string> }` — note `suggested_by_agent_id` is the id of the
acting user (the customer making the choice). -/
def escalationRequestRow (s : Store) (u : User) (ticket_id : Nat) : TicketEscalation :=
  { id := s.now, ticket_id := ticket_id, suggested_by_agent_id := u.id,
    status := .pending, reason := some escalationReason,
    created_at := s.now, updated_at := s.now }

/-- `handleResolutionChoice` of `TicketChat` (lines 877-908):
`'resolved'` delegates to `updateTicketStatus('resolved')`; `'unresolved'`
inserts the escalation row and, only when that insert reports no error,
updates the status to `'unresolved'` and then inserts the system message
(whose own result is ignored).  A missing profile makes `userProfile!.id`
throw, which the `catch` swallows.  No branch surfaces an error. -/
def handleResolutionChoice (s : Store) (userProfile : Option User) (ticket : Ticket)
    (choice : ResolutionChoice) : Store × Option OpError :=
  match choice with
  | .resolved => updateTicketStatus s userProfile ticket .resolved
  | .unresolved =>
    match userProfile with
    | none => (s, none)
    | some u =>
      match dbInsertEscalation s u (escalationRequestRow s u ticket.id) with
      | (s1, none) =>
          let s2 := (updateTicketStatus s1 (some u) ticket .unresolved).1
          ((dbInsertTicketMessage s2 u ticket.id reopenSystemMessage).1, none)
      | (s1, some _) => (s1, none)

/-- `loadMessages` of `TicketChat` (lines 728-742):
`select * from ticket_messages where ticket_id = ticket.id order by
created_at ascending`, with the select RLS policy restricting visible rows
to the querying viewer. -/
def loadMessages (s : Store) (viewer : User) (tid : Nat) : List TicketMessage :=
  List.insertionSort (fun a b => a.created_at ≤ b.created_at)
    (s.ticket_messages.filter fun m =>
      m.ticket_id == tid && ticketMessagesSelectPolicy s viewer m)

/-- Line 1070 of `TicketChat`: the message input form is rendered only when
`ticketData.status === 'open'`. -/
def messageInputRendered (t : Ticket) : Bool :=
  t.status == .open_

/-- The status of the ticket row with the given id, as a reader of the
store observes it. -/
def statusOf (s : Store) (tid : Nat) : Option Status :=
  (s.tickets.find? fun t => t.id == tid).map fun t => t.status

/-- The tag of the team the user belongs to via `users.team_id`. -/
def userTeamTag (s : Store) (u : User) : Option String :=
  match u.team_id with
  | none => none
  | some tmid => (s.teams.find? fun tm => tm.id == tmid).map fun tm => tm.tag

/-- Store sanity: every message timestamp was assigned by the server clock
(so it is below the current clock), and message timestamps strictly
increase in commit order.  Both hold of every store built by the operations
above, since each insert stamps `created_at := now` and advances `now`. -/
structure StoreWF (s : Store) : Prop where
  msgs_lt_now : ∀ m ∈ s.ticket_messages, m.created_at < s.now
  msgs_sorted : s.ticket_messages.Pairwise fun a b => a.created_at < b.created_at



/-! ## Concrete fixtures

Concrete stores, users, and tickets used by the counterexample and witness
theorems below. -/

/-- A customer (role `customer`, id 42), owner of the sample ticket. -/
def custC : User := ⟨42, .customer, none⟩

/-- An agent (role `agent`, id 7) who is a member of the Billing team. -/
def agentA : User := ⟨7, .agent, some 1⟩

/-- The Billing team (tag `billing`). -/
def teamBilling : Team := ⟨1, "Billing", "billing"⟩

/-- The Support team (tag `support`). -/
def teamSupport : Team := ⟨2, "Support", "support"⟩

/-- A ticket owned by customer 42, tagged for the Support team, assigned to
agent 7, currently in status `closed`. -/
def ticketClosed : Ticket := ⟨1, "Cannot log in", "desc", 42, some "support", some 7, .closed, 0, 5⟩

/-- The same ticket while still in status `open`. -/
def ticketOpen : Ticket := ⟨1, "Cannot log in", "desc", 42, some "support", some 7, .open_, 0, 5⟩

/-- The ticket row produced from `ticketOpen` by a staff update to
`resolved` at server time 10. -/
def ticketOpenAfter : Ticket := ⟨1, "Cannot log in", "desc", 42, some "support", some 7, .resolved, 0, 10⟩

/-- A store holding the closed sample ticket and no messages. -/
def storeClosed : Store := ⟨[teamBilling, teamSupport], [ticketClosed], [], [], [], 10⟩

/-- A store holding the open sample ticket and no messages. -/
def storeOpen : Store := ⟨[teamBilling, teamSupport], [ticketOpen], [], [], [], 10⟩

/-- First committed message on the sample ticket (server timestamp 3). -/
def msg1 : TicketMessage := ⟨100, 1, 42, "first", 3⟩

/-- Second committed message on the sample ticket (server timestamp 4). -/
def msg2 : TicketMessage := ⟨101, 1, 7, "second", 4⟩

/-- A store holding the sample ticket and the two committed messages. -/
def storeMsgs : Store := ⟨[teamBilling, teamSupport], [ticketClosed], [msg1, msg2], [], [], 10⟩

/-! ## Formalisations of the spec claims that the code falsifies

Each `specCn` definition renders the corresponding claim verbatim over the
embedding, to be refuted at a concrete input. -/

/-- Claim C2 as stated: `setStatus` to `closed`/`open` succeeds only for a
staff actor; to `resolved`/`unresolved` succeeds only for the owning
customer on a currently-`closed` ticket; every other actor/status
combination fails with `AccessDenied`.  "Succeeds" means: no error is
reported and the requested status is persisted on the ticket row. -/
def specC2 : Prop :=
  ∀ (s : Store) (u : User) (t : Ticket) (st : Status), t ∈ s.tickets →
    (((st = .closed ∨ st = .open_) →
        ((((updateTicketStatus s (some u) t st).2 = none ∧
            statusOf (updateTicketStatus s (some u) t st).1 t.id = some st) →
            u.role.isStaff = true) ∧
          (u.role.isStaff = false →
            (updateTicketStatus s (some u) t st).2 = some .accessDenied))) ∧
      ((st = .resolved ∨ st = .unresolved) →
        ((((updateTicketStatus s (some u) t st).2 = none ∧
            statusOf (updateTicketStatus s (some u) t st).1 t.id = some st) →
            (u.id = t.customer_id ∧ t.status = .closed)) ∧
          (¬(u.id = t.customer_id ∧ t.status = .closed) →
            (updateTicketStatus s (some u) t st).2 = some .accessDenied))))

/-- The transition edges of the §4.1 state machine as cited by claim C3:
`open → closed` by staff; `closed → resolved`/`unresolved` by the owning
customer; `closed`/`resolved`/`unresolved` → `open` by staff. -/
def validTransition (u : User) (t : Ticket) (newStatus : Status) : Prop :=
  (t.status = .open_ ∧ newStatus = .closed ∧ u.role.isStaff = true) ∨
  (t.status = .closed ∧ (newStatus = .resolved ∨ newStatus = .unresolved) ∧
    u.id = t.customer_id) ∨
  ((t.status = .closed ∨ t.status = .resolved ∨ t.status = .unresolved) ∧
    newStatus = .open_ ∧ u.role.isStaff = true)

/-- Claim C3 as stated: every attempted transition leaves the status inside
the four-element status set, and either the transition is a §4.1 edge or
the call fails with `InvalidTransition` leaving the status unchanged. -/
def specC3 : Prop :=
  ∀ (s : Store) (u : User) (t : Ticket) (newStatus : Status), t ∈ s.tickets →
    (∀ t' ∈ (updateTicketStatus s (some u) t newStatus).1.tickets,
        t'.status = .open_ ∨ t'.status = .closed ∨ t'.status = .resolved ∨
          t'.status = .unresolved) ∧
    (validTransition u t newStatus ∨
      ((updateTicketStatus s (some u) t newStatus).2 = some .invalidTransition ∧
        statusOf (updateTicketStatus s (some u) t newStatus).1 t.id = statusOf s t.id))

/-- Claim C4 as stated: a `postMessage` whose body is empty or
whitespace-only fails with `ValidationError` and appends nothing. -/
def specC4 : Prop :=
  ∀ (s : Store) (u : User) (t : Ticket) (body : String), jsTrim body = "" →
    ((sendMessage s (some u) t body).2 = some .validationError ∧
      (sendMessage s (some u) t body).1.ticket_messages = s.ticket_messages)

/-- Claim C5 as stated: `postMessage` on a ticket whose status is not
`open` is rejected and appends no message. -/
def specC5 : Prop :=
  ∀ (s : Store) (u : User) (t : Ticket) (body : String), t.status ≠ .open_ →
    ((sendMessage s (some u) t body).2 ≠ none ∧
      (sendMessage s (some u) t body).1.ticket_messages = s.ticket_messages)

/-- Claim C8 as stated: an agent whose team tag differs from the ticket
team tag is denied `postMessage` on that ticket with `AccessDenied`. -/
def specC8 : Prop :=
  ∀ (s : Store) (u : User) (t : Ticket) (body : String),
    u.role = .agent → t ∈ s.tickets → userTeamTag s u ≠ t.team_tag →
      ((dbInsertTicketMessage s u t.id body).2 = some .accessDenied ∧
        (dbInsertTicketMessage s u t.id body).1.ticket_messages = s.ticket_messages)

/-- Claim C9 as stated, for the data-store calls the core operations make:
whenever the underlying store call fails, the failure is reported to the
caller of the core operation. -/
def specC9 : Prop :=
  (∀ (s : Store) (u : User) (t : Ticket) (body : String),
      jsTrim body ≠ "" →
      (dbInsertTicketMessage s u t.id (jsTrim body)).2 ≠ none →
      (sendMessage s (some u) t body).2 ≠ none) ∧
  (∀ (s : Store) (u : User) (t : Ticket),
      (dbInsertEscalation s u (escalationRequestRow s u t.id)).2 ≠ none →
      (handleResolutionChoice s (some u) t .unresolved).2 ≠ none)
/-! ## Helper lemmas -/

/-- Logging an activity touches only the `activity_logs` table: the
`tickets` table is unchanged. -/
theorem dbInsertActivityLog_tickets (s : Store) (u : User) (a : String) :
    (dbInsertActivityLog s u a).1.tickets = s.tickets := by
  simp only [dbInsertActivityLog]
  split <;> rfl

/-- Logging an activity leaves the `ticket_messages` table unchanged. -/
theorem dbInsertActivityLog_messages (s : Store) (u : User) (a : String) :
    (dbInsertActivityLog s u a).1.ticket_messages = s.ticket_messages := by
  simp only [dbInsertActivityLog]
  split <;> rfl

/-- The tickets table after the client `updateTicketStatus` is exactly the
tickets table after the underlying store update (the activity log written
afterwards does not touch it). -/
theorem updateTicketStatus_tickets_eq (s : Store) (u : User) (t : Ticket) (st : Status) :
    (updateTicketStatus s (some u) t st).1.tickets =
      (dbUpdateTicketStatus s u t.id st).1.tickets := by
  unfold updateTicketStatus
  exact dbInsertActivityLog_tickets _ u _

/-- `statusOf` only reads the tickets table. -/
theorem statusOf_eq_of_tickets_eq {s1 s2 : Store} (tid : Nat)
    (h : s1.tickets = s2.tickets) : statusOf s1 tid = statusOf s2 tid := by
  unfold statusOf
  rw [h]

/-- For a non-staff actor the update policy filters out every row, so the
store update leaves the tickets table untouched (and reports no error). -/
theorem dbUpdateTicketStatus_tickets_of_not_staff (s : Store) (u : User) (tid : Nat)
    (st : Status) (h : u.role.isStaff = false) :
    (dbUpdateTicketStatus s u tid st).1.tickets = s.tickets := by
  unfold dbUpdateTicketStatus ticketsUpdatePolicy
  simp [h]

/-- Auxiliary: mapping a function that keeps ids, rewrites the status of
rows matching `tid` to `st`, and leaves other rows alone commutes with
looking up the status of row `tid`. -/
theorem find?_statusMap_aux (tid : Nat) (st : Status) (f : Ticket → Ticket)
    (hid : ∀ t, (f t).id = t.id)
    (hpos : ∀ t, (t.id == tid) = true → (f t).status = st)
    (hneg : ∀ t, (t.id == tid) = false → f t = t) :
    ∀ l : List Ticket,
      ((l.map f).find? (fun t => t.id == tid)).map (fun t => t.status) =
        ((l.find? (fun t => t.id == tid)).map (fun t => t.status)).map fun _ => st
  | [] => rfl
  | t :: ts => by
    have hfid : ((f t).id == tid) = (t.id == tid) := by rw [hid t]
    cases h : (t.id == tid) with
    | true =>
      simp [List.find?_cons, hfid, h, hpos t h]
    | false =>
      simp only [List.map_cons, List.find?_cons, hfid, h]
      exact find?_statusMap_aux tid st f hid hpos hneg ts

/-- How the store update changes the observable status of a ticket id: for
a staff actor the requested status is persisted on the row with that id
(when one exists); for any other actor nothing changes. -/
theorem statusOf_dbUpdateTicketStatus (s : Store) (u : User) (tid : Nat) (st : Status) :
    statusOf (dbUpdateTicketStatus s u tid st).1 tid =
      if u.role.isStaff then (statusOf s tid).map fun _ => st
      else statusOf s tid := by
  cases hst : u.role.isStaff with
  | false =>
    rw [if_neg (by simp [hst])]
    exact statusOf_eq_of_tickets_eq tid
      (dbUpdateTicketStatus_tickets_of_not_staff s u tid st hst)
  | true =>
    rw [if_pos rfl]
    unfold statusOf dbUpdateTicketStatus ticketsUpdatePolicy
    simp only [hst, Bool.and_true]
    exact find?_statusMap_aux tid st _ (fun t => by split <;> rfl)
      (fun t h => by simp [h]) (fun t h => by simp [h]) s.tickets

/-! ## Claim theorems -/

/-- C1: evaluation of the resolution handshake at a concrete closed ticket
owned by customer 42.  Choosing `unresolved` creates no escalation (the
agents-only insert policy rejects the customer), appends no message, and
leaves the persistent status `closed`, all without any reported error;
choosing `resolved` also leaves the persistent status `closed` (the
staff-only update policy filters the customer update to zero rows). -/
theorem resolution_handshake_blocked :
    ((handleResolutionChoice storeClosed (some custC) ticketClosed .unresolved).1.ticket_escalations = [] ∧
      (handleResolutionChoice storeClosed (some custC) ticketClosed .unresolved).1.ticket_messages = [] ∧
      statusOf (handleResolutionChoice storeClosed (some custC) ticketClosed .unresolved).1 ticketClosed.id =
        some .closed ∧
      (handleResolutionChoice storeClosed (some custC) ticketClosed .unresolved).2 = none) ∧
    (statusOf (handleResolutionChoice storeClosed (some custC) ticketClosed .resolved).1 ticketClosed.id =
        some .closed ∧
      (handleResolutionChoice storeClosed (some custC) ticketClosed .resolved).2 = none) := by
  decide

/-- C7: the escalation row built by `handleResolutionChoice` carries the id
of the acting customer in `suggested_by_agent_id`, not the id of the staff
member who closed the ticket (agent 7, still recorded as
`assigned_agent_id` on the fixture); and the store rejects that row, so
after the choice no escalation exists at all. -/
theorem escalation_records_customer_not_agent :
    (escalationRequestRow storeClosed custC ticketClosed.id).suggested_by_agent_id = custC.id ∧
    custC.role = .customer ∧
    (escalationRequestRow storeClosed custC ticketClosed.id).suggested_by_agent_id ≠ agentA.id ∧
    (dbInsertEscalation storeClosed custC (escalationRequestRow storeClosed custC ticketClosed.id)).2 =
      some .accessDenied ∧
    (handleResolutionChoice storeClosed (some custC) ticketClosed .unresolved).1.ticket_escalations = [] := by
  decide

/-- C2 counterexample: the claimed access-control contract of `setStatus`
is false.  At the concrete input (agent 7, open ticket, requested status
`resolved`) the update succeeds and persists even though the actor is not
the owning customer and the ticket is not `closed`, and no `AccessDenied`
is produced. -/
theorem setStatus_access_spec_false : ¬ specC2 := by
  intro h
  have h2 := ((h storeOpen agentA ticketOpen .resolved (by decide)).2 (Or.inl rfl)).2 (by decide)
  revert h2
  decide

/-- C2 amended: `updateTicketStatus` never reports an error; a non-staff
actor (in particular the owning customer) changes nothing at all, and a
staff actor persists any requested status on the addressed ticket row. -/
theorem setStatus_persists_iff_staff (s : Store) (u : User) (t : Ticket) (st : Status) :
    (updateTicketStatus s (some u) t st).2 = none ∧
    (u.role.isStaff = false → (updateTicketStatus s (some u) t st).1.tickets = s.tickets) ∧
    (u.role.isStaff = true →
      statusOf (updateTicketStatus s (some u) t st).1 t.id = (statusOf s t.id).map fun _ => st) := by
  refine ⟨rfl, fun h => ?_, fun h => ?_⟩
  · rw [updateTicketStatus_tickets_eq]
    exact dbUpdateTicketStatus_tickets_of_not_staff s u t.id st h
  · rw [statusOf_eq_of_tickets_eq t.id (updateTicketStatus_tickets_eq s u t st),
      statusOf_dbUpdateTicketStatus, if_pos h]

/-- C2 witness: the amended statement at concrete inputs — customer 42
leaves the open ticket untouched, agent 7 persists `resolved` onto it. -/
theorem setStatus_persists_iff_staff_witness :
    (updateTicketStatus storeOpen (some custC) ticketOpen .closed).1.tickets = storeOpen.tickets ∧
    statusOf (updateTicketStatus storeOpen (some agentA) ticketOpen .resolved).1 ticketOpen.id =
      (statusOf storeOpen ticketOpen.id).map (fun _ => Status.resolved) :=
  ⟨(setStatus_persists_iff_staff storeOpen custC ticketOpen .closed).2.1 (by decide),
    (setStatus_persists_iff_staff storeOpen agentA ticketOpen .resolved).2.2 (by decide)⟩

/-- C3 counterexample: the claimed state-machine enforcement is false.  At
the concrete input (agent 7, open ticket, requested status `resolved`) the
transition is not a §4.1 edge, yet the call does not fail with
`InvalidTransition`: it succeeds with no error. -/
theorem state_machine_spec_false : ¬ specC3 := by
  intro h
  have h2 := (h storeOpen agentA ticketOpen .resolved (by decide)).2
  unfold validTransition at h2
  revert h2
  decide

/-- C3 amended: every resulting status is one of the four declared status
values (closure holds by the status check constraint), but no
transition-validity check exists: the call never fails — in particular it
never fails with `InvalidTransition` — and a staff actor persists any
requested status from any current status. -/
theorem setStatus_no_transition_check (s : Store) (u : User) (t : Ticket) (newStatus : Status) :
    (∀ t' ∈ (updateTicketStatus s (some u) t newStatus).1.tickets,
        t'.status = .open_ ∨ t'.status = .closed ∨ t'.status = .resolved ∨
          t'.status = .unresolved) ∧
    (updateTicketStatus s (some u) t newStatus).2 = none ∧
    (u.role.isStaff = true →
      statusOf (updateTicketStatus s (some u) t newStatus).1 t.id =
        (statusOf s t.id).map fun _ => newStatus) := by
  refine ⟨fun t' _ => ?_, rfl, fun h => ?_⟩
  · cases t'.status with
    | open_ => exact Or.inl rfl
    | closed => exact Or.inr (Or.inl rfl)
    | resolved => exact Or.inr (Or.inr (Or.inl rfl))
    | unresolved => exact Or.inr (Or.inr (Or.inr rfl))
  · rw [statusOf_eq_of_tickets_eq t.id (updateTicketStatus_tickets_eq s u t newStatus),
      statusOf_dbUpdateTicketStatus, if_pos h]

/-- C3 witness: the amended statement at a concrete non-edge transition —
agent 7 moves the open ticket directly to `resolved`; the updated row is in
the four-status set, no error is reported, and the status persists. -/
theorem setStatus_no_transition_check_witness :
    (ticketOpenAfter.status = .open_ ∨ ticketOpenAfter.status = .closed ∨
      ticketOpenAfter.status = .resolved ∨ ticketOpenAfter.status = .unresolved) ∧
    (updateTicketStatus storeOpen (some agentA) ticketOpen .resolved).2 = none ∧
    statusOf (updateTicketStatus storeOpen (some agentA) ticketOpen .resolved).1 ticketOpen.id =
      (statusOf storeOpen ticketOpen.id).map (fun _ => Status.resolved) :=
  ⟨(setStatus_no_transition_check storeOpen agentA ticketOpen .resolved).1
      ticketOpenAfter (by decide),
    (setStatus_no_transition_check storeOpen agentA ticketOpen .resolved).2.1,
    (setStatus_no_transition_check storeOpen agentA ticketOpen .resolved).2.2 (by decide)⟩

/-- C4 counterexample: a whitespace-only body does not fail with
`ValidationError`; at the concrete input (customer 42, body of three
spaces) `sendMessage` reports no error at all. -/
theorem blank_message_spec_false : ¬ specC4 := by
  intro h
  have h1 := (h storeClosed custC ticketClosed "   " (by decide)).1
  revert h1
  decide

/-- C4 amended: an empty or whitespace-only body makes `sendMessage` a
silent no-op — the store is untouched, no message is appended, and no
error of any kind is reported to the caller. -/
theorem sendMessage_blank_silent_noop (s : Store) (p : Option User) (t : Ticket)
    (body : String) (h : jsTrim body = "") :
    sendMessage s p t body = (s, none) := by
  cases p with
  | none => rfl
  | some u =>
    simp only [sendMessage]
    rw [if_pos h]

/-- C4 witness: the amended statement at body `"   "`. -/
theorem sendMessage_blank_silent_noop_witness :
    jsTrim "   " = "" ∧
    sendMessage storeClosed (some custC) ticketClosed "   " = (storeClosed, none) :=
  ⟨by decide, sendMessage_blank_silent_noop storeClosed (some custC) ticketClosed "   " (by decide)⟩

/-- C5 counterexample: posting to a non-`open` ticket is not rejected; at
the concrete input (customer 42, own ticket in status `closed`, body
`"hi"`) `sendMessage` reports no error and does append the message. -/
theorem status_gate_spec_false : ¬ specC5 := by
  intro h
  have h1 := (h storeClosed custC ticketClosed "hi" (by decide)).1
  revert h1
  decide

/-- C5 amended: only the UI hides the input on a non-`open` ticket;
`sendMessage` itself checks no status, so any authorized author appends a
message to a ticket of any status. -/
theorem sendMessage_ignores_ticket_status (s : Store) (u : User) (t : Ticket) (body : String)
    (hmem : t ∈ s.tickets) (hacc : t.customer_id = u.id ∨ u.role.isStaff = true)
    (hbody : jsTrim body ≠ "") (hstatus : t.status ≠ .open_) :
    messageInputRendered t = false ∧
    (sendMessage s (some u) t body).1.ticket_messages =
      s.ticket_messages ++ [⟨s.now, t.id, u.id, jsTrim body, s.now⟩] := by
  constructor
  · unfold messageInputRendered
    cases hts : t.status <;> simp_all
  · have hpol : ticketMessagesInsertPolicy s u ⟨s.now, t.id, u.id, jsTrim body, s.now⟩ = true := by
      unfold ticketMessagesInsertPolicy
      have hany : (s.tickets.any fun tk =>
          tk.id == t.id && (tk.customer_id == u.id || u.role.isStaff)) = true :=
        List.any_eq_true.mpr ⟨t, hmem, by
          cases hacc with
          | inl h => simp [h]
          | inr h => simp [h]⟩
      simp [hany]
    have hins : dbInsertTicketMessage s u t.id (jsTrim body) =
        ({ s with
           ticket_messages := s.ticket_messages ++ [⟨s.now, t.id, u.id, jsTrim body, s.now⟩],
           now := s.now + 1 }, none) := by
      simp only [dbInsertTicketMessage]
      rw [if_pos hpol]
    have hrun : sendMessage s (some u) t body =
        ((dbInsertActivityLog
          { s with
            ticket_messages := s.ticket_messages ++ [⟨s.now, t.id, u.id, jsTrim body, s.now⟩],
            now := s.now + 1 } u "Sent message in ticket").1, none) := by
      simp only [sendMessage]
      rw [if_neg hbody, hins]
    rw [hrun, dbInsertActivityLog_messages]

/-- C5 witness: the amended statement at the concrete closed ticket — the
owning customer posts `" hi "` to their closed ticket and the trimmed
message is appended even though the input form is not even rendered. -/
theorem sendMessage_ignores_ticket_status_witness :
    messageInputRendered ticketClosed = false ∧
    (sendMessage storeClosed (some custC) ticketClosed " hi ").1.ticket_messages =
      storeClosed.ticket_messages ++
        [⟨storeClosed.now, ticketClosed.id, custC.id, jsTrim " hi ", storeClosed.now⟩] :=
  sendMessage_ignores_ticket_status storeClosed custC ticketClosed " hi "
    (by decide) (Or.inl rfl) (by decide) (by decide)

/-- C8 counterexample: an agent from a different team is not denied; at the
concrete input (agent 7 of team `billing`, ticket tagged `support`) the
message insert succeeds with no error. -/
theorem team_scope_spec_false : ¬ specC8 := by
  intro h
  have h1 := (h storeOpen agentA ticketOpen "hi" rfl (by decide) (by decide)).1
  revert h1
  decide

/-- C8 amended: the message-insert policy checks only authorship and
(ticket ownership or staff role), never team membership, so every staff
actor — whatever their team — can post to every existing ticket. -/
theorem message_insert_ignores_team (s : Store) (u : User) (tid : Nat) (body : String)
    (hstaff : u.role.isStaff = true) (hmem : ∃ t ∈ s.tickets, t.id = tid) :
    (dbInsertTicketMessage s u tid body).2 = none ∧
    (dbInsertTicketMessage s u tid body).1.ticket_messages =
      s.ticket_messages ++ [⟨s.now, tid, u.id, body, s.now⟩] := by
  obtain ⟨t, htm, hid⟩ := hmem
  have hpol : ticketMessagesInsertPolicy s u ⟨s.now, tid, u.id, body, s.now⟩ = true := by
    unfold ticketMessagesInsertPolicy
    have hany : (s.tickets.any fun tk =>
        tk.id == tid && (tk.customer_id == u.id || u.role.isStaff)) = true :=
      List.any_eq_true.mpr ⟨t, htm, by simp [hid, hstaff]⟩
    simp [hany]
  simp only [dbInsertTicketMessage]
  rw [if_pos hpol]
  exact ⟨rfl, rfl⟩

/-- C8 witness: the amended statement at the concrete team-mismatched
input — agent 7 (team `billing`) posts to the `support`-tagged ticket. -/
theorem message_insert_ignores_team_witness :
    userTeamTag storeOpen agentA ≠ ticketOpen.team_tag ∧
    (dbInsertTicketMessage storeOpen agentA ticketOpen.id "hello").2 = none ∧
    (dbInsertTicketMessage storeOpen agentA ticketOpen.id "hello").1.ticket_messages =
      storeOpen.ticket_messages ++
        [⟨storeOpen.now, ticketOpen.id, agentA.id, "hello", storeOpen.now⟩] :=
  ⟨by decide,
    message_insert_ignores_team storeOpen agentA ticketOpen.id "hello" rfl
      ⟨ticketOpen, by decide, rfl⟩⟩

/-- C9 counterexample: a store failure is not reported; at the concrete
input the escalation insert inside `handleResolutionChoice` fails with
`accessDenied`, yet the operation reports no failure to its caller. -/
theorem error_propagation_spec_false : ¬ specC9 := by
  intro h
  have h2 := h.2 storeClosed custC ticketClosed (by decide)
  revert h2
  decide

/-- C9 amended: the three core operations never surface any failure: on
every input and every store each returns `none` as its outcome, whatever
the underlying store calls did (store errors are logged to the console and
otherwise swallowed). -/
theorem client_ops_surface_no_error (s : Store) (p : Option User) (t : Ticket)
    (body : String) (st : Status) (choice : ResolutionChoice) :
    (sendMessage s p t body).2 = none ∧
    (updateTicketStatus s p t st).2 = none ∧
    (handleResolutionChoice s p t choice).2 = none := by
  refine ⟨?_, ?_, ?_⟩
  · cases p with
    | none => rfl
    | some u =>
      simp only [sendMessage]
      split
      · rfl
      · rcases hins : dbInsertTicketMessage s u t.id (jsTrim body) with ⟨s1, e⟩
        cases e <;> simp [hins]
  · cases p with
    | none => rfl
    | some u => rfl
  · cases choice with
    | resolved =>
      cases p with
      | none => rfl
      | some u => rfl
    | unresolved =>
      cases p with
      | none => rfl
      | some u =>
        simp only [handleResolutionChoice]
        rcases hins : dbInsertEscalation s u (escalationRequestRow s u t.id) with ⟨s1, e⟩
        cases e <;> simp [hins]

/-- C10: the frame property of `updateTicketStatus` — whatever the actor
and requested status, every ticket row keeps its `title`, `description`,
`customer_id`, `team_tag`, and `assigned_agent_id` (only `status` and
`updated_at` may change). -/
theorem setStatus_frame (s : Store) (p : Option User) (t : Ticket) (st : Status) :
    (updateTicketStatus s p t st).1.tickets.map
        (fun tk => (tk.title, tk.description, tk.customer_id, tk.team_tag, tk.assigned_agent_id)) =
      s.tickets.map
        (fun tk => (tk.title, tk.description, tk.customer_id, tk.team_tag, tk.assigned_agent_id)) := by
  cases p with
  | none => rfl
  | some u =>
    rw [updateTicketStatus_tickets_eq]
    simp only [dbUpdateTicketStatus]
    rw [List.map_map]
    apply List.map_congr_left
    intro a _
    simp only [Function.comp]
    split <;> rfl

/-! ## Well-formedness is maintained by the store operations -/

/-- A store with the same messages and a clock at least as late inherits
well-formedness. -/
theorem StoreWF.mono {s s' : Store} (h : StoreWF s)
    (hm : s'.ticket_messages = s.ticket_messages) (hn : s.now ≤ s'.now) : StoreWF s' := by
  constructor
  · intro m hmem
    rw [hm] at hmem
    exact Nat.lt_of_lt_of_le (h.msgs_lt_now m hmem) hn
  · rw [hm]
    exact h.msgs_sorted

/-- Appending a freshly stamped message and advancing the clock keeps the
store well-formed. -/
theorem StoreWF.append_msg {s : Store} (h : StoreWF s) (row : TicketMessage)
    (hrow : row.created_at = s.now) :
    StoreWF { s with
              ticket_messages := s.ticket_messages ++ [row],
              now := s.now + 1 } := by
  constructor
  · intro m hm
    rcases List.mem_append.mp hm with hm | hm
    · exact Nat.lt_succ_of_lt (h.msgs_lt_now m hm)
    · rw [List.mem_singleton.mp hm, hrow]
      exact Nat.lt_succ_self s.now
  · rw [List.pairwise_append]
    refine ⟨h.msgs_sorted, List.pairwise_singleton _ _, fun a ha b hb => ?_⟩
    rw [List.mem_singleton.mp hb, hrow]
    exact h.msgs_lt_now a ha

/-- The message insert preserves store well-formedness: the new row is
stamped with the current server clock, which then advances. -/
theorem StoreWF_dbInsertTicketMessage (s : Store) (u : User) (tid : Nat) (body : String)
    (h : StoreWF s) : StoreWF (dbInsertTicketMessage s u tid body).1 := by
  simp only [dbInsertTicketMessage]
  split
  · exact h.append_msg _ rfl
  · exact h.mono rfl (Nat.le_succ s.now)

/-- The status update touches no messages and only advances the clock. -/
theorem StoreWF_dbUpdateTicketStatus (s : Store) (u : User) (tid : Nat) (st : Status)
    (h : StoreWF s) : StoreWF (dbUpdateTicketStatus s u tid st).1 :=
  h.mono rfl (Nat.le_succ s.now)

/-- The escalation insert touches no messages and only advances the clock. -/
theorem StoreWF_dbInsertEscalation (s : Store) (u : User) (row : TicketEscalation)
    (h : StoreWF s) : StoreWF (dbInsertEscalation s u row).1 := by
  simp only [dbInsertEscalation]
  split
  · exact h.mono rfl (Nat.le_succ s.now)
  · exact h.mono rfl (Nat.le_succ s.now)

/-- The activity-log insert touches no messages and only advances the clock. -/
theorem StoreWF_dbInsertActivityLog (s : Store) (u : User) (a : String)
    (h : StoreWF s) : StoreWF (dbInsertActivityLog s u a).1 := by
  simp only [dbInsertActivityLog]
  split
  · exact h.mono rfl (Nat.le_succ s.now)
  · exact h.mono rfl (Nat.le_succ s.now)

/-- C6: `loadMessages` returns exactly the addressed ticket messages in
commit order.  On a well-formed store, for a viewer who owns the ticket or
is staff: the result equals the commit-ordered message log restricted to
the ticket; it is strictly sorted by the server-assigned `created_at`; and
any message `m1` committed before a message `m2` appears before it.
Client-local clocks cannot influence this: `created_at` is assigned solely
from the server clock at commit time. -/
theorem loadMessages_commit_order (s : Store) (viewer : User) (t : Ticket)
    (m1 m2 : TicketMessage) (l1 l2 l3 : List TicketMessage)
    (hwf : StoreWF s) (hmem : t ∈ s.tickets)
    (hview : t.customer_id = viewer.id ∨ viewer.role.isStaff = true)
    (hdecomp : s.ticket_messages = l1 ++ m1 :: (l2 ++ m2 :: l3))
    (h1 : m1.ticket_id = t.id) (h2 : m2.ticket_id = t.id) :
    loadMessages s viewer t.id = (s.ticket_messages.filter fun m => m.ticket_id == t.id) ∧
    (loadMessages s viewer t.id).Pairwise (fun a b => a.created_at < b.created_at) ∧
    [m1, m2].Sublist (loadMessages s viewer t.id) := by
  have hpol : ∀ m ∈ s.ticket_messages,
      (m.ticket_id == t.id && ticketMessagesSelectPolicy s viewer m) = (m.ticket_id == t.id) := by
    intro m _
    cases hm : (m.ticket_id == t.id) with
    | false => simp
    | true =>
      simp only [Bool.true_and]
      unfold ticketMessagesSelectPolicy
      refine List.any_eq_true.mpr ⟨t, hmem, ?_⟩
      have hid : m.ticket_id = t.id := by simpa using hm
      cases hview with
      | inl h => simp [hid, h]
      | inr h => simp [hid, h]
  have hfilt : (s.ticket_messages.filter fun m =>
      m.ticket_id == t.id && ticketMessagesSelectPolicy s viewer m) =
      (s.ticket_messages.filter fun m => m.ticket_id == t.id) :=
    List.filter_congr hpol
  have hsorted : (s.ticket_messages.filter fun m => m.ticket_id == t.id).Pairwise
      (fun a b => a.created_at < b.created_at) :=
    hwf.msgs_sorted.sublist (List.filter_sublist s.ticket_messages)
  have hle : List.Sorted (fun a b : TicketMessage => a.created_at ≤ b.created_at)
      (s.ticket_messages.filter fun m => m.ticket_id == t.id) :=
    hsorted.imp fun h => Nat.le_of_lt h
  have hload : loadMessages s viewer t.id =
      (s.ticket_messages.filter fun m => m.ticket_id == t.id) := by
    unfold loadMessages
    rw [hfilt]
    exact hle.insertionSort_eq
  refine ⟨hload, ?_, ?_⟩
  · rw [hload]
    exact hsorted
  · rw [hload]
    have hsub : [m1, m2].Sublist s.ticket_messages := by
      rw [hdecomp]
      have hA : [m2].Sublist (m2 :: l3) := List.Sublist.cons₂ m2 (List.nil_sublist l3)
      have hB : [m2].Sublist (l2 ++ m2 :: l3) :=
        hA.trans (List.sublist_append_right l2 (m2 :: l3))
      have hC : [m1, m2].Sublist (m1 :: (l2 ++ m2 :: l3)) := List.Sublist.cons₂ m1 hB
      exact hC.trans (List.sublist_append_right l1 (m1 :: (l2 ++ m2 :: l3)))
    have hsubf := hsub.filter fun m => m.ticket_id == t.id
    simpa [List.filter, h1, h2] using hsubf

/-- C6 witness: the ordering statement at the concrete two-message store,
viewed by the owning customer. -/
theorem loadMessages_commit_order_witness :
    loadMessages storeMsgs custC ticketClosed.id =
      (storeMsgs.ticket_messages.filter fun m => m.ticket_id == ticketClosed.id) ∧
    (loadMessages storeMsgs custC ticketClosed.id).Pairwise
      (fun a b => a.created_at < b.created_at) ∧
    [msg1, msg2].Sublist (loadMessages storeMsgs custC ticketClosed.id) :=
  loadMessages_commit_order storeMsgs custC ticketClosed msg1 msg2 [] [] []
    ⟨by decide, by decide⟩ (by decide) (Or.inl rfl) rfl rfl rfl

end SupportSystem
